import Mathlib

/-!
Shallow embedding of the daisy-patch-arp arpeggiator engine.

The repository contains three near-duplicate engine variants:
* `src/arp.cpp`          — basic engine (fixed 4-step chord walk), namespace `Arp`
* `src/unnamed/part_000` — pattern table + note-change queue,     namespace `ArpQ`
* `src/unnamed/part_001` — tempo pot + internal auto-start,       namespace `ArpT`

Machine integers (`uint32_t` millisecond timestamps) are modelled as `Nat`
with truncated subtraction (time is monotone in every run we consider, so no
wraparound occurs).  `float` arithmetic is modelled exactly over `ℚ`; every
numeric fact proved below involves only values that are exact in binary
floating point or is stated about the idealised rational computation.
One loop iteration of `main` becomes a pure `tick : State → Input → State × Output`
function; the loop body is polled once per millisecond (`hw.Delay(1)`).
-/

/-- `roundf` from C: round to nearest integer, halves away from zero. -/
def roundQ (q : ℚ) : ℤ :=
  if 0 ≤ q then ⌊q + 1 / 2⌋ else -⌊-q + 1 / 2⌋

/-- `static_cast<int>` applied to a nonnegative-or-negative float:
truncation toward zero. -/
def truncQ (q : ℚ) : ℤ :=
  if 0 ≤ q then ⌊q⌋ else -⌊-q⌋

/-- `QuantizeCvToNote` (identical in all three variants, src/arp.cpp:38-50):
`cv_volts = cv_normalized * 5`, `note_float = cv_volts * 12 + 11`,
then `roundf`. -/
def QuantizeCvToNote (cvNormalized : ℚ) : ℤ :=
  roundQ (cvNormalized * 5 * 12 + 11)

/-- `NoteToCv` (src/arp.cpp:54-58): `(midi_note - 11) / 12.0f`. -/
def NoteToCv (midiNote : ℤ) : ℚ :=
  ((midiNote : ℚ) - 11) / 12

/-- `chord_intervals[4] = {0, 4, 7, 10}` (src/arp.cpp:34). -/
def chordInterval (k : ℕ) : ℤ :=
  ([0, 4, 7, 10] : List ℤ).getD k 0

/-- The output-CV clamp applied before every `WriteCvOut(CV_OUT_1, …)`
(src/arp.cpp:169-170): `if (v < 0) v = 0; if (v > 5) v = 5;`. -/
def clampOut (v : ℚ) : ℚ :=
  let v1 := if v < 0 then 0 else v
  if v1 > 5 then 5 else v1

namespace Arp

/-! Embedding of `src/arp.cpp` `main`'s loop body (lines 85-197).
State fields mirror the file-scope globals; one `tick` is one loop
iteration, with `System::GetNow()` idealised to return the same value
`i.now` throughout the iteration.  The CV_OUT_2 LED write (a `sinf`
animation, outside the engine core) is not modelled. -/

structure State where
  quantizedNote : ℤ
  bpm : ℚ
  lastGateTime : ℕ
  gateTriggered : Bool
  arpStep : ℕ
  lastStepTime : ℕ
  stepIntervalMs : ℚ
  internalClockEnabled : Bool
  lastInternalClockTime : ℕ
deriving DecidableEq, Repr

/-- Initial values of the globals (src/arp.cpp:16-31). -/
def initState : State :=
  { quantizedNote := 0, bpm := 120, lastGateTime := 0, gateTriggered := false,
    arpStep := 0, lastStepTime := 0, stepIntervalMs := 125,
    internalClockEnabled := false, lastInternalClockTime := 0 }

structure Input where
  switchOn : Bool
  gateTrig : Bool
  baseNoteCv : ℚ
  now : ℕ
deriving DecidableEq, Repr

structure Output where
  cvOut : Option ℚ
  gateOut : Option Bool
deriving DecidableEq, Repr

/-- Clock source handling (src/arp.cpp:116-130): internal timer compare or
external `gate_in_1.Trig()`.  Returns the `clock_trigger` flag and the
(possibly updated) state. -/
def clockStage (internal trig : Bool) (now : ℕ) (s : State) : Bool × State :=
  if internal = true then
    if (((now - s.lastInternalClockTime : ℕ) : ℚ) ≥ 500) then
      (true, { s with lastInternalClockTime := now })
    else (false, s)
  else (trig, s)

/-- Clock-trigger handling (src/arp.cpp:133-154): external BPM measurement
guarded by `last_gate_time > 0` and `interval_ms > 0`, then reset of the
arpeggio position. -/
def trigStage (trigger internal : Bool) (now : ℕ) (s : State) : State :=
  if trigger = true then
    let s1 :=
      if internal = false ∧ s.lastGateTime > 0 then
        let intervalMs := now - s.lastGateTime
        if intervalMs > 0 then
          { s with bpm := 60000 / (intervalMs : ℚ),
                   stepIntervalMs := (intervalMs : ℚ) / 4 }
        else s
      else s
    { s1 with lastGateTime := now, gateTriggered := true,
              arpStep := 0, lastStepTime := now }
  else s

/-- Arpeggiator step / gate logic (src/arp.cpp:157-188). -/
def arpStage (now : ℕ) (s : State) : State × Output :=
  if s.gateTriggered = true then
    if (((now - s.lastStepTime : ℕ) : ℚ) ≥ s.stepIntervalMs) then
      let note := s.quantizedNote + chordInterval s.arpStep
      let outputCv := clampOut (NoteToCv note)
      ({ s with arpStep := (s.arpStep + 1) % 4, lastStepTime := now },
       { cvOut := some outputCv, gateOut := some true })
    else if now - s.lastStepTime > 10 then
      (s, { cvOut := none, gateOut := some false })
    else (s, { cvOut := none, gateOut := none })
  else (s, { cvOut := none, gateOut := some false })

/-- One iteration of the `while (1)` loop of src/arp.cpp:85-197. -/
def tick (s : State) (i : Input) : State × Output :=
  let prev := s.internalClockEnabled
  let internal := i.switchOn
  let s1 : State := { s with internalClockEnabled := internal }
  let s2 : State :=
    if internal = true ∧ prev = false then
      { s1 with lastInternalClockTime := i.now, bpm := 120,
                stepIntervalMs := 500 / 4 }
    else s1
  let s3 : State :=
    if internal = false ∧ prev = true then
      { s2 with gateTriggered := false, lastGateTime := 0 }
    else s2
  let s4 : State := { s3 with quantizedNote := QuantizeCvToNote i.baseNoteCv }
  let cs := clockStage internal i.gateTrig i.now s4
  let s5 : State := trigStage cs.1 internal i.now cs.2
  arpStage i.now s5

end Arp

namespace ArpQ

/-! Embedding of `src/unnamed/part_000` (pattern table + note-change queue
variant).  Same conventions as namespace `Arp`. -/

/-- `enum ArpPattern` (part_000:40-50). -/
inductive ArpPattern where
  | up
  | down
  | upDown4
  | downUp4
  | upDown8
  | downUp8
  | random
  | oneThreeTwoFour
deriving DecidableEq, Repr

/-- `static_cast<ArpPattern>(pattern_index)` for an index already clamped
into `[0, ARP_PATTERN_COUNT)`. -/
def patternOfIdx (idx : ℤ) : ArpPattern :=
  if idx = 0 then .up
  else if idx = 1 then .down
  else if idx = 2 then .upDown4
  else if idx = 3 then .downUp4
  else if idx = 4 then .upDown8
  else if idx = 5 then .downUp8
  else if idx = 6 then .random
  else .oneThreeTwoFour

/-- `pattern_lengths` (part_000:62-71). -/
def patternLengthOf : ArpPattern → ℕ
  | .up => 4
  | .down => 4
  | .upDown4 => 4
  | .downUp4 => 4
  | .upDown8 => 8
  | .downUp8 => 8
  | .random => 4
  | .oneThreeTwoFour => 4

/-- `GetPatternIndex` (part_000:101-122); the `rand()` call of the RANDOM
pattern is injected as the `rnd` argument. -/
def GetPatternIndex (p : ArpPattern) (step : ℕ) (rnd : ℕ) : ℕ :=
  match p with
  | .up => ([0, 1, 2, 3] : List ℕ).getD (step % 4) 0
  | .down => ([3, 2, 1, 0] : List ℕ).getD (step % 4) 0
  | .upDown4 => ([0, 1, 2, 3] : List ℕ).getD (step % 4) 0
  | .downUp4 => ([3, 2, 1, 0] : List ℕ).getD (step % 4) 0
  | .upDown8 => ([0, 1, 2, 3, 3, 2, 1, 0] : List ℕ).getD (step % 8) 0
  | .downUp8 => ([3, 2, 1, 0, 0, 1, 2, 3] : List ℕ).getD (step % 8) 0
  | .random => rnd % 4
  | .oneThreeTwoFour => ([0, 2, 1, 3] : List ℕ).getD (step % 4) 0

/-- `SelectPattern` (part_000:125-137): always rescales via `(cv+1)/2`,
buckets by `ARP_PATTERN_COUNT = 8`, clamps the index at both ends. -/
def SelectPattern (cvNormalized : ℚ) : ArpPattern :=
  let cv01 := (cvNormalized + 1) / 2
  let idx := truncQ (cv01 * 8)
  let idx1 := if idx < 0 then 0 else idx
  let idx2 := if idx1 ≥ 8 then 7 else idx1
  patternOfIdx idx2

structure State where
  quantizedNote : ℤ
  nextQuantizedNote : ℤ
  noteChangePending : Bool
  bpm : ℚ
  lastGateTime : ℕ
  gateTriggered : Bool
  arpStep : ℕ
  lastStepTime : ℕ
  stepIntervalMs : ℚ
  internalClockEnabled : Bool
  lastInternalClockTime : ℕ
  currentPattern : ArpPattern
  patternLength : ℕ
deriving DecidableEq, Repr

/-- Initial values of the globals (part_000:16-75). -/
def initState : State :=
  { quantizedNote := 0, nextQuantizedNote := 0, noteChangePending := false,
    bpm := 120, lastGateTime := 0, gateTriggered := false, arpStep := 0,
    lastStepTime := 0, stepIntervalMs := 125, internalClockEnabled := false,
    lastInternalClockTime := 0, currentPattern := .up, patternLength := 4 }

structure Input where
  switchOn : Bool
  gateTrig : Bool
  patternCv : ℚ
  baseNoteCv : ℚ
  rnd : ℕ
  now : ℕ
deriving DecidableEq, Repr

structure Output where
  cvOut : Option ℚ
  gateOut : Option Bool
deriving DecidableEq, Repr

/-- Pattern-selection handling (part_000:189-198): on change, reset the step
counter (the step interval is NOT recomputed in this variant). -/
def patternStage (patternCv : ℚ) (s : State) : State :=
  let newPattern := SelectPattern patternCv
  if newPattern ≠ s.currentPattern then
    { s with currentPattern := newPattern,
             patternLength := patternLengthOf newPattern,
             arpStep := 0 }
  else s

/-- Note-change queue (part_000:200-218). -/
def noteStage (baseNoteCv : ℚ) (s : State) : State :=
  let newNote := QuantizeCvToNote baseNoteCv
  if newNote ≠ s.quantizedNote ∧ newNote ≠ s.nextQuantizedNote then
    if s.arpStep ≠ 0 ∧ s.gateTriggered = true then
      { s with nextQuantizedNote := newNote, noteChangePending := true }
    else
      { s with quantizedNote := newNote, nextQuantizedNote := newNote,
               noteChangePending := false }
  else s

/-- Clock source handling (part_000:220-234), identical to src/arp.cpp. -/
def clockStage (internal trig : Bool) (now : ℕ) (s : State) : Bool × State :=
  if internal = true then
    if (((now - s.lastInternalClockTime : ℕ) : ℚ) ≥ 500) then
      (true, { s with lastInternalClockTime := now })
    else (false, s)
  else (trig, s)

/-- Clock-trigger handling (part_000:236-258), identical to src/arp.cpp. -/
def trigStage (trigger internal : Bool) (now : ℕ) (s : State) : State :=
  if trigger = true then
    let s1 :=
      if internal = false ∧ s.lastGateTime > 0 then
        let intervalMs := now - s.lastGateTime
        if intervalMs > 0 then
          { s with bpm := 60000 / (intervalMs : ℚ),
                   stepIntervalMs := (intervalMs : ℚ) / 4 }
        else s
      else s
    { s1 with lastGateTime := now, gateTriggered := true,
              arpStep := 0, lastStepTime := now }
  else s

/-- Arpeggiator step / gate logic with the pending-note drain at step 0
(part_000:260-301). -/
def arpStage (now : ℕ) (rnd : ℕ) (s : State) : State × Output :=
  if s.gateTriggered = true then
    if (((now - s.lastStepTime : ℕ) : ℚ) ≥ s.stepIntervalMs) then
      let s1 :=
        if s.arpStep = 0 ∧ s.noteChangePending = true then
          { s with quantizedNote := s.nextQuantizedNote,
                   noteChangePending := false }
        else s
      let chordIdx := GetPatternIndex s1.currentPattern s1.arpStep rnd
      let note := s1.quantizedNote + chordInterval chordIdx
      let outputCv := clampOut (NoteToCv note)
      ({ s1 with arpStep := (s1.arpStep + 1) % s1.patternLength,
                 lastStepTime := now },
       { cvOut := some outputCv, gateOut := some true })
    else if now - s.lastStepTime > 10 then
      (s, { cvOut := none, gateOut := some false })
    else (s, { cvOut := none, gateOut := none })
  else (s, { cvOut := none, gateOut := some false })

/-- One iteration of the `while (1)` loop of part_000:164-310. -/
def tick (s : State) (i : Input) : State × Output :=
  let prev := s.internalClockEnabled
  let internal := i.switchOn
  let s1 : State := { s with internalClockEnabled := internal }
  let s2 : State :=
    if internal = true ∧ prev = false then
      { s1 with lastInternalClockTime := i.now, bpm := 120,
                stepIntervalMs := 500 / 4 }
    else s1
  let s3 : State :=
    if internal = false ∧ prev = true then
      { s2 with gateTriggered := false, lastGateTime := 0 }
    else s2
  let s4 : State := patternStage i.patternCv s3
  let s5 : State := noteStage i.baseNoteCv s4
  let cs := clockStage internal i.gateTrig i.now s5
  let s6 : State := trigStage cs.1 internal i.now cs.2
  arpStage i.now i.rnd s6

end ArpQ

namespace ArpT

/-! Embedding of `src/unnamed/part_001` (tempo-pot variant with internal
auto-start).  Same conventions as namespace `Arp`. -/

/-- `enum ArpPattern` (part_001:41-49). -/
inductive ArpPattern where
  | up
  | down
  | upDown
  | downUp
  | random
  | oneThreeTwoFour
deriving DecidableEq, Repr

/-- `static_cast<ArpPattern>(pattern_index)` for an index already clamped
into `[0, ARP_PATTERN_COUNT)`. -/
def patternOfIdx (idx : ℤ) : ArpPattern :=
  if idx = 0 then .up
  else if idx = 1 then .down
  else if idx = 2 then .upDown
  else if idx = 3 then .downUp
  else if idx = 4 then .random
  else .oneThreeTwoFour

/-- `pattern_lengths` (part_001:59-66). -/
def patternLengthOf : ArpPattern → ℕ
  | .up => 4
  | .down => 4
  | .upDown => 6
  | .downUp => 6
  | .random => 4
  | .oneThreeTwoFour => 4

/-- `GetPatternIndex` (part_001:96-113); `rand()` injected as `rnd`. -/
def GetPatternIndex (p : ArpPattern) (step : ℕ) (rnd : ℕ) : ℕ :=
  match p with
  | .up => ([0, 1, 2, 3] : List ℕ).getD (step % 4) 0
  | .down => ([3, 2, 1, 0] : List ℕ).getD (step % 4) 0
  | .upDown => ([0, 1, 2, 3, 2, 1] : List ℕ).getD (step % 6) 0
  | .downUp => ([3, 2, 1, 0, 1, 2] : List ℕ).getD (step % 6) 0
  | .random => rnd % 4
  | .oneThreeTwoFour => ([0, 2, 1, 3] : List ℕ).getD (step % 4) 0

/-- `SelectPattern` (part_001:116-140): sign-detected bipolar/unipolar
normalization, clamp to `[0,1]`, bucket by `ARP_PATTERN_COUNT = 6`,
upper-clamp the index. -/
def SelectPattern (cvNormalized : ℚ) : ArpPattern :=
  let cv01 := if cvNormalized < 0 then (cvNormalized + 1) / 2 else cvNormalized
  let cv01a := if cv01 < 0 then 0 else cv01
  let cv01b := if cv01a > 1 then 1 else cv01a
  let idx := truncQ (cv01b * 6)
  let idx1 := if idx ≥ 6 then 5 else idx
  patternOfIdx idx1

/-- Tempo-pot mapping (part_001:181-194): sign-detected normalization,
clamp to `[0,1]`, then `MIN_BPM + t * (MAX_BPM - MIN_BPM)` with
`MIN_BPM = 20`, `MAX_BPM = 200`. -/
def tempoBpm (tempoCv : ℚ) : ℚ :=
  let t := if tempoCv < 0 then (tempoCv + 1) / 2 else tempoCv
  let t1 := if t < 0 then 0 else t
  let t2 := if t1 > 1 then 1 else t1
  20 + t2 * (200 - 20)

structure State where
  quantizedNote : ℤ
  nextQuantizedNote : ℤ
  noteChangePending : Bool
  bpm : ℚ
  lastGateTime : ℕ
  gateTriggered : Bool
  arpStep : ℕ
  lastStepTime : ℕ
  stepIntervalMs : ℚ
  internalClockEnabled : Bool
  currentPattern : ArpPattern
  patternLength : ℕ
deriving DecidableEq, Repr

/-- Initial values of the globals (part_001:16-70). -/
def initState : State :=
  { quantizedNote := 0, nextQuantizedNote := 0, noteChangePending := false,
    bpm := 120, lastGateTime := 0, gateTriggered := false, arpStep := 0,
    lastStepTime := 0, stepIntervalMs := 125, internalClockEnabled := false,
    currentPattern := .up, patternLength := 4 }

structure Input where
  switchOn : Bool
  gateTrig : Bool
  tempoCv : ℚ
  patternCv : ℚ
  baseNoteCv : ℚ
  rnd : ℕ
  now : ℕ
deriving DecidableEq, Repr

structure Output where
  cvOut : Option ℚ
  gateOut : Option Bool
deriving DecidableEq, Repr

/-- Pattern-selection handling (part_001:207-219): on change, reset step AND
recompute the step interval from the current BPM and new pattern length. -/
def patternStage (patternCv : ℚ) (s : State) : State :=
  let newPattern := SelectPattern patternCv
  if newPattern ≠ s.currentPattern then
    let len := patternLengthOf newPattern
    { s with currentPattern := newPattern, patternLength := len, arpStep := 0,
             stepIntervalMs := (60000 / s.bpm) / (len : ℚ) }
  else s

/-- Note-change queue (part_001:221-239), identical to part_000. -/
def noteStage (baseNoteCv : ℚ) (s : State) : State :=
  let newNote := QuantizeCvToNote baseNoteCv
  if newNote ≠ s.quantizedNote ∧ newNote ≠ s.nextQuantizedNote then
    if s.arpStep ≠ 0 ∧ s.gateTriggered = true then
      { s with nextQuantizedNote := newNote, noteChangePending := true }
    else
      { s with quantizedNote := newNote, nextQuantizedNote := newNote,
               noteChangePending := false }
  else s

/-- Clock handling (part_001:241-279): in internal mode the step interval is
taken from the BPM and playback auto-starts; in external mode a trigger
measures the BPM (guarded) and resets the arpeggio. -/
def clockStage (internal trig : Bool) (now : ℕ) (s : State) : State :=
  if internal = true then
    let s1 := { s with stepIntervalMs := 60000 / s.bpm }
    if s1.gateTriggered = false then
      { s1 with gateTriggered := true, arpStep := 0, lastStepTime := now }
    else s1
  else
    if trig = true then
      let s1 :=
        if s.lastGateTime > 0 then
          let intervalMs := now - s.lastGateTime
          if intervalMs > 0 then
            { s with bpm := 60000 / (intervalMs : ℚ),
                     stepIntervalMs := (intervalMs : ℚ) / (s.patternLength : ℚ) }
          else s
        else s
      { s1 with lastGateTime := now, gateTriggered := true,
                arpStep := 0, lastStepTime := now }
    else s

/-- Arpeggiator step / gate logic with pending-note drain (part_001:281-322),
identical in structure to part_000. -/
def arpStage (now : ℕ) (rnd : ℕ) (s : State) : State × Output :=
  if s.gateTriggered = true then
    if (((now - s.lastStepTime : ℕ) : ℚ) ≥ s.stepIntervalMs) then
      let s1 :=
        if s.arpStep = 0 ∧ s.noteChangePending = true then
          { s with quantizedNote := s.nextQuantizedNote,
                   noteChangePending := false }
        else s
      let chordIdx := GetPatternIndex s1.currentPattern s1.arpStep rnd
      let note := s1.quantizedNote + chordInterval chordIdx
      let outputCv := clampOut (NoteToCv note)
      ({ s1 with arpStep := (s1.arpStep + 1) % s1.patternLength,
                 lastStepTime := now },
       { cvOut := some outputCv, gateOut := some true })
    else if now - s.lastStepTime > 10 then
      (s, { cvOut := none, gateOut := some false })
    else (s, { cvOut := none, gateOut := none })
  else (s, { cvOut := none, gateOut := some false })

/-- One iteration of the `while (1)` loop of part_001:167-335. -/
def tick (s : State) (i : Input) : State × Output :=
  let prev := s.internalClockEnabled
  let internal := i.switchOn
  let s1 : State := { s with internalClockEnabled := internal }
  let s2 : State := if internal = true then { s1 with bpm := tempoBpm i.tempoCv } else s1
  let s3 : State :=
    if internal = false ∧ prev = true then
      { s2 with gateTriggered := false, lastGateTime := 0 }
    else s2
  let s4 : State := patternStage i.patternCv s3
  let s5 : State := noteStage i.baseNoteCv s4
  let s6 : State := clockStage internal i.gateTrig i.now s5
  arpStage i.now i.rnd s6

/-- Modelled from the spec (claim C9): the pattern-index computation in the
spec's own words — a bipolar reading is detected by sign and rescaled via
`(x+1)/2`, the normalized value is mapped into `ARP_PATTERN_COUNT = 6`
equal-width buckets, and the resulting index is clamped into the valid
range `[0, 5]` at both ends. -/
def SelectPatternSpecIdx (cvNormalized : ℚ) : ℤ :=
  let u := if cvNormalized < 0 then (cvNormalized + 1) / 2 else cvNormalized
  max 0 (min 5 ⌊u * 6⌋)

end ArpT

/-- Post-fire waiting state used by the C2 counterexample: a step fired at
t = 1000 ms and the step interval is 10.5 ms (reachable from an external
clock interval of 42 ms, since 42 / 4 = 10.5).  `quantizedNote = 11` matches
`QuantizeCvToNote 0`, making the state a fixed point of non-firing polls. -/
def c2State : Arp.State :=
  { Arp.initState with quantizedNote := 11, gateTriggered := true,
                       lastStepTime := 1000, lastGateTime := 958,
                       stepIntervalMs := 21 / 2 }

/-- Poll input for the C2 counterexample: external mode, no trigger edge. -/
def c2In (now : ℕ) : Arp.Input :=
  { switchOn := false, gateTrig := false, baseNoteCv := 0, now := now }

/-- Concrete run for the C8 counterexample: external trigger at t = 100,
steps fire at t = 225 and t = 350 (step interval 125 ms), the clock-source
toggle is flipped to internal at t = 351 and back to external at t = 352. -/
def c8Run : Arp.State :=
  List.foldl (fun s i => (Arp.tick s i).1) Arp.initState
    [{ switchOn := false, gateTrig := true, baseNoteCv := 0, now := 100 },
     { switchOn := false, gateTrig := false, baseNoteCv := 0, now := 225 },
     { switchOn := false, gateTrig := false, baseNoteCv := 0, now := 350 },
     { switchOn := true, gateTrig := false, baseNoteCv := 0, now := 351 },
     { switchOn := false, gateTrig := false, baseNoteCv := 0, now := 352 }]

/-- Toggle-to-internal poll input used for C8. -/
def c8On (cv : ℚ) (t : ℕ) : Arp.Input :=
  { switchOn := true, gateTrig := false, baseNoteCv := cv, now := t }

/-- Toggle-back-to-external poll input used for C8. -/
def c8Off (cv : ℚ) (t : ℕ) : Arp.Input :=
  { switchOn := false, gateTrig := false, baseNoteCv := cv, now := t }

/-- External-mode state for the C7 counterexample: the 8-step
`ARP_UP_DOWN_8` pattern is active.  `quantizedNote = 11` matches
`QuantizeCvToNote 0`. -/
def c7State : ArpQ.State :=
  { ArpQ.initState with quantizedNote := 11, nextQuantizedNote := 11,
                        currentPattern := .upDown8, patternLength := 8 }

/-- The C7 counterexample state right after the external → internal toggle
branch of the loop. -/
def c7s3 : ArpQ.State :=
  { c7State with internalClockEnabled := true, lastInternalClockTime := 1000,
                 bpm := 120, stepIntervalMs := 500 / 4 }

/-- Toggle-to-internal input for the C7 counterexample; `patternCv = 1/10`
keeps `SelectPattern` at `ARP_UP_DOWN_8`. -/
def c7In : ArpQ.Input :=
  { switchOn := true, gateTrig := false, patternCv := 1 / 10, baseNoteCv := 0,
    rnd := 0, now := 1000 }

/-- Mid-pattern playing state for the C1 witness (step 1, root note 11). -/
def c1sA : ArpQ.State :=
  { ArpQ.initState with gateTriggered := true, arpStep := 1,
                        quantizedNote := 11, nextQuantizedNote := 11 }

/-- Input proposing a new root (quantizes to 14) mid-pattern;
`patternCv = -9/10` keeps `SelectPattern` at `ARP_UP`. -/
def c1iA : ArpQ.Input :=
  { switchOn := false, gateTrig := false, patternCv := -9 / 10,
    baseNoteCv := 1 / 20, rnd := 0, now := 50 }

/-- Step-0 firing state with a pending note 14 for the C1 witness. -/
def c1sB : ArpQ.State :=
  { ArpQ.initState with gateTriggered := true, arpStep := 0,
                        noteChangePending := true, quantizedNote := 11,
                        nextQuantizedNote := 14, lastStepTime := 0 }

/-- Firing input at t = 500 whose CV still quantizes to the pending 14. -/
def c1iB : ArpQ.Input :=
  { switchOn := false, gateTrig := false, patternCv := -9 / 10,
    baseNoteCv := 1 / 20, rnd := 0, now := 500 }

/-- Idle state for the C1 witness. -/
def c1sC : ArpQ.State :=
  { ArpQ.initState with quantizedNote := 11, nextQuantizedNote := 11 }

/-- Input proposing a new root (quantizes to 14) while idle. -/
def c1iC : ArpQ.Input :=
  { switchOn := false, gateTrig := false, patternCv := -9 / 10,
    baseNoteCv := 1 / 20, rnd := 0, now := 0 }

/-- External-mode state with a previous trigger at t = 1000 (C3 witness). -/
def c3s : ArpT.State :=
  { ArpT.initState with lastGateTime := 1000 }

/-- Trigger input 500 ms after the previous one; `patternCv = -9/10` keeps
`SelectPattern` at the 4-step `ARP_UP`. -/
def c3i : ArpT.Input :=
  { switchOn := false, gateTrig := true, tempoCv := 0, patternCv := -9 / 10,
    baseNoteCv := 0, rnd := 0, now := 1500 }

/-! ## Theorems -/

theorem roundQ_intCast (n : ℤ) : roundQ (n : ℚ) = n := by
  unfold roundQ
  split
  · have : ⌊(n : ℚ) + 1 / 2⌋ = n := by
      rw [Int.floor_eq_iff]
      constructor <;> norm_num
    exact this
  · have : ⌊-(n : ℚ) + 1 / 2⌋ = -n := by
      rw [Int.floor_eq_iff]
      push_cast
      constructor <;> norm_num
    rw [this, neg_neg]

theorem roundQ_nearest (q : ℚ) : |((roundQ q : ℤ) : ℚ) - q| ≤ 1 / 2 := by
  unfold roundQ
  split
  · have h1 : ((⌊q + 1 / 2⌋ : ℤ) : ℚ) ≤ q + 1 / 2 := Int.floor_le _
    have h2 : q + 1 / 2 - 1 < ((⌊q + 1 / 2⌋ : ℤ) : ℚ) := Int.sub_one_lt_floor _
    rw [abs_le]
    constructor <;> linarith
  · have h1 : ((⌊-q + 1 / 2⌋ : ℤ) : ℚ) ≤ -q + 1 / 2 := Int.floor_le _
    have h2 : -q + 1 / 2 - 1 < ((⌊-q + 1 / 2⌋ : ℤ) : ℚ) := Int.sub_one_lt_floor _
    rw [abs_le]
    constructor <;> push_cast <;> linarith

theorem clampOut_nonneg (v : ℚ) : 0 ≤ clampOut v := by
  by_cases h1 : v < 0
  · simp only [clampOut, if_pos h1]
    norm_num
  · by_cases h2 : v > 5
    · simp only [clampOut, if_neg h1, if_pos h2]
      norm_num
    · simp only [clampOut, if_neg h1, if_neg h2]
      exact le_of_not_lt h1

theorem clampOut_le_five (v : ℚ) : clampOut v ≤ 5 := by
  by_cases h1 : v < 0
  · simp only [clampOut, if_pos h1]
    norm_num
  · by_cases h2 : v > 5
    · simp only [clampOut, if_neg h1, if_pos h2]
      norm_num
    · simp only [clampOut, if_neg h1, if_neg h2]
      exact le_of_not_lt h2

/-- C5: quantizing the normalized CV of a note's output voltage —
`QuantizeCvToNote (NoteToCv n / 5)` — recovers `n` for every integer MIDI
note, and `QuantizeCvToNote` returns the nearest integer to its linear note
value `cv * 5 * 12 + 11` (rounding, never truncating: the result is within
half a semitone of the exact linear value). -/
theorem quantize_noteToCv_roundtrip :
    (∀ n : ℤ, QuantizeCvToNote (NoteToCv n / 5) = n) ∧
      (∀ cv : ℚ, |((QuantizeCvToNote cv : ℤ) : ℚ) - (cv * 5 * 12 + 11)| ≤ 1 / 2) := by
  constructor
  · intro n
    unfold QuantizeCvToNote NoteToCv
    have h : ((n : ℚ) - 11) / 12 / 5 * 5 * 12 + 11 = (n : ℚ) := by ring
    rw [h, roundQ_intCast]
  · intro cv
    exact roundQ_nearest (cv * 5 * 12 + 11)


theorem Arp.arpStage_cv_clamped (now : ℕ) (s : Arp.State) (v : ℚ)
    (h : (Arp.arpStage now s).2.cvOut = some v) : 0 ≤ v ∧ v ≤ 5 := by
  unfold Arp.arpStage at h
  split_ifs at h
  all_goals simp only [Option.some.injEq] at h
  all_goals exact h ▸ ⟨clampOut_nonneg _, clampOut_le_five _⟩

theorem ArpQ.arpStage_cv_clampedQ (now rnd : ℕ) (s : ArpQ.State) (v : ℚ)
    (h : (ArpQ.arpStage now rnd s).2.cvOut = some v) : 0 ≤ v ∧ v ≤ 5 := by
  unfold ArpQ.arpStage at h
  split_ifs at h
  all_goals simp only [Option.some.injEq] at h
  all_goals exact h ▸ ⟨clampOut_nonneg _, clampOut_le_five _⟩

/-- C6: for every root-CV input reading and every engine state (reachable or
not), any pitch voltage written to CV_OUT_1 lies within `[0, 5]` volts — the
value is clamped before the write.  Stated for both the src/arp.cpp engine
and the part_000 engine cited by the claim. -/
theorem tick_pitch_output_clamped :
    (∀ (s : Arp.State) (i : Arp.Input) (v : ℚ),
        (Arp.tick s i).2.cvOut = some v → 0 ≤ v ∧ v ≤ 5) ∧
      (∀ (s : ArpQ.State) (i : ArpQ.Input) (v : ℚ),
        (ArpQ.tick s i).2.cvOut = some v → 0 ≤ v ∧ v ≤ 5) := by
  constructor
  · intro s i v h
    unfold Arp.tick at h
    exact Arp.arpStage_cv_clamped _ _ _ h
  · intro s i v h
    unfold ArpQ.tick at h
    exact ArpQ.arpStage_cv_clampedQ _ _ _ _ h

/-- Witness for C6: a concrete fired step whose emitted pitch voltage is 0,
inside the output range. -/
theorem tick_pitch_output_clamped_witness : (0 : ℚ) ≤ 0 ∧ (0 : ℚ) ≤ 5 :=
  tick_pitch_output_clamped.1
    { Arp.initState with gateTriggered := true }
    { switchOn := false, gateTrig := false, baseNoteCv := 0, now := 1000 }
    0 (by norm_num [Arp.tick, Arp.clockStage, Arp.trigStage, Arp.arpStage,
      Arp.initState, QuantizeCvToNote, roundQ, NoteToCv, clampOut, chordInterval])

/-- C4: on an external trigger whose elapsed interval since the previous
trigger is zero, the tempo and step interval are retained unchanged, while
the trigger still resets the step counter to 0, records the trigger
timestamp as the new step-timing origin (`last_step_time`) and as the new
`last_gate_time`, and sets the triggered flag (src/arp.cpp:133-154). -/
theorem trigger_zero_interval_retains_tempo
    (s : Arp.State) (i : Arp.Input)
    (hInt : s.internalClockEnabled = false)
    (hSw : i.switchOn = false)
    (hTrig : i.gateTrig = true)
    (hPrev : s.lastGateTime > 0)
    (hNow : i.now = s.lastGateTime)
    (hSi : 0 < s.stepIntervalMs) :
    (Arp.tick s i).1.bpm = s.bpm ∧
      (Arp.tick s i).1.stepIntervalMs = s.stepIntervalMs ∧
      (Arp.tick s i).1.arpStep = 0 ∧
      (Arp.tick s i).1.lastStepTime = i.now ∧
      (Arp.tick s i).1.lastGateTime = i.now ∧
      (Arp.tick s i).1.gateTriggered = true := by
  simp only [Arp.tick, Arp.clockStage, Arp.trigStage, Arp.arpStage,
    hSw, hInt, hTrig, hNow, Nat.sub_self]
  norm_num
  simp only [if_neg (not_le.mpr hSi)]
  norm_num

/-- Witness for C4 at a concrete repeated-timestamp trigger. -/
theorem trigger_zero_interval_retains_tempo_witness :
    (Arp.tick { Arp.initState with lastGateTime := 700, stepIntervalMs := 80 }
        { switchOn := false, gateTrig := true, baseNoteCv := 0, now := 700 }).1.bpm =
        (120 : ℚ) ∧
      (Arp.tick { Arp.initState with lastGateTime := 700, stepIntervalMs := 80 }
          { switchOn := false, gateTrig := true, baseNoteCv := 0, now := 700 }).1.stepIntervalMs =
        (80 : ℚ) := by
  have h := trigger_zero_interval_retains_tempo
    { Arp.initState with lastGateTime := 700, stepIntervalMs := 80 }
    { switchOn := false, gateTrig := true, baseNoteCv := 0, now := 700 }
    rfl rfl rfl (by norm_num) rfl (by norm_num [Arp.initState])
  exact ⟨h.1, h.2.1⟩

/-- C2 (counterexample): with a step interval of 10.5 ms — strictly greater
than the 10 ms pulse width — the gate is NEVER written low between the step
fired at t = 1000 and the next step fired at t = 1011: every poll in
between leaves the state unchanged and writes nothing to the gate, because
no integer millisecond elapsed value lies strictly between 10 and 10.5.
This refutes the claim as stated for step intervals in (10, 11]. -/
theorem gate_pulse_claim_counterexample :
    (10 : ℚ) < c2State.stepIntervalMs ∧
      (Arp.tick c2State (c2In 1001)).1 = c2State ∧
      (Arp.tick c2State (c2In 1001)).2.gateOut = none ∧
      (Arp.tick c2State (c2In 1002)).1 = c2State ∧
      (Arp.tick c2State (c2In 1002)).2.gateOut = none ∧
      (Arp.tick c2State (c2In 1003)).1 = c2State ∧
      (Arp.tick c2State (c2In 1003)).2.gateOut = none ∧
      (Arp.tick c2State (c2In 1004)).1 = c2State ∧
      (Arp.tick c2State (c2In 1004)).2.gateOut = none ∧
      (Arp.tick c2State (c2In 1005)).1 = c2State ∧
      (Arp.tick c2State (c2In 1005)).2.gateOut = none ∧
      (Arp.tick c2State (c2In 1006)).1 = c2State ∧
      (Arp.tick c2State (c2In 1006)).2.gateOut = none ∧
      (Arp.tick c2State (c2In 1007)).1 = c2State ∧
      (Arp.tick c2State (c2In 1007)).2.gateOut = none ∧
      (Arp.tick c2State (c2In 1008)).1 = c2State ∧
      (Arp.tick c2State (c2In 1008)).2.gateOut = none ∧
      (Arp.tick c2State (c2In 1009)).1 = c2State ∧
      (Arp.tick c2State (c2In 1009)).2.gateOut = none ∧
      (Arp.tick c2State (c2In 1010)).1 = c2State ∧
      (Arp.tick c2State (c2In 1010)).2.gateOut = none ∧
      (Arp.tick c2State (c2In 1011)).2.gateOut = some true := by
  norm_num [Arp.tick, Arp.clockStage, Arp.trigStage, Arp.arpStage,
    Arp.initState, c2State, c2In, QuantizeCvToNote, roundQ, NoteToCv,
    clampOut, chordInterval, Arp.State.mk.injEq]

/-- C2 (amended): for every step interval strictly greater than 11 ms (the
10 ms pulse width plus one millisecond of timer resolution), once a step
has fired the gate is not written low within the 10 ms pulse window, is
written low at 11 ms elapsed — before the next step, which can only fire
once the elapsed time reaches the step interval (src/arp.cpp:157-188). -/
theorem gate_pulse_low_between_steps
    (s : Arp.State) (cv : ℚ) (now : ℕ)
    (hTrig : s.gateTriggered = true)
    (hInt : s.internalClockEnabled = false)
    (hSi : (11 : ℚ) < s.stepIntervalMs)
    (hNow : s.lastStepTime ≤ now) :
    (now - s.lastStepTime ≤ 10 →
        (Arp.tick s { switchOn := false, gateTrig := false, baseNoteCv := cv,
                      now := now }).2.gateOut = none) ∧
      (now - s.lastStepTime = 11 →
        (Arp.tick s { switchOn := false, gateTrig := false, baseNoteCv := cv,
                      now := now }).2.gateOut = some false) ∧
      ((Arp.tick s { switchOn := false, gateTrig := false, baseNoteCv := cv,
                     now := now }).2.gateOut = some true →
        s.stepIntervalMs ≤ ((now - s.lastStepTime : ℕ) : ℚ)) := by
  refine ⟨?_, ?_, ?_⟩
  · intro h
    have hc : ((now - s.lastStepTime : ℕ) : ℚ) ≤ 10 := by exact_mod_cast Nat.cast_le.mpr h
    have h1 : ¬ (s.stepIntervalMs ≤ ((now - s.lastStepTime : ℕ) : ℚ)) := by linarith
    have h2 : ¬ (now - s.lastStepTime > 10) := by omega
    simp [Arp.tick, Arp.clockStage, Arp.trigStage, Arp.arpStage, hInt, hTrig, h1, h2]
  · intro h
    have hc : ((now - s.lastStepTime : ℕ) : ℚ) = 11 := by rw [h]; norm_num
    have h1 : ¬ (s.stepIntervalMs ≤ ((now - s.lastStepTime : ℕ) : ℚ)) := by
      rw [hc]; linarith
    have h2 : now - s.lastStepTime > 10 := by omega
    simp [Arp.tick, Arp.clockStage, Arp.trigStage, Arp.arpStage, hInt, hTrig, h1, h2]
  · by_cases hf : s.stepIntervalMs ≤ ((now - s.lastStepTime : ℕ) : ℚ)
    · exact fun _ => hf
    · intro hgate
      by_cases h10 : now - s.lastStepTime > 10 <;>
        simp [Arp.tick, Arp.clockStage, Arp.trigStage, Arp.arpStage,
          hInt, hTrig, hf, h10] at hgate

/-- Witness for C2 (amended) at step interval 125 ms: the gate-low write
happens at 11 ms elapsed. -/
theorem gate_pulse_low_between_steps_witness :
    (Arp.tick { Arp.initState with gateTriggered := true, lastStepTime := 1000 }
        { switchOn := false, gateTrig := false, baseNoteCv := 0,
          now := 1011 }).2.gateOut = some false :=
  (gate_pulse_low_between_steps
      { Arp.initState with gateTriggered := true, lastStepTime := 1000 } 0 1011
      rfl rfl (by norm_num [Arp.initState]) (by norm_num)).2.1 (by norm_num)

/-- C8 (counterexample): after toggling external → internal → external
mid-pattern, the engine is idle and the last-trigger timestamp is cleared,
but the pattern step counter is NOT 0 — it retains the mid-pattern value 2,
refuting the "step 0" part of the claim (src/arp.cpp:92-108 never resets
`arp_step`). -/
theorem mode_toggle_step_not_reset_counterexample :
    c8Run.gateTriggered = false ∧ c8Run.lastGateTime = 0 ∧
      c8Run.arpStep = 2 ∧ c8Run.arpStep ≠ 0 := by
  norm_num [c8Run, Arp.tick, Arp.clockStage, Arp.trigStage, Arp.arpStage,
    Arp.initState, QuantizeCvToNote, roundQ, NoteToCv, clampOut, chordInterval]

/-- C8 (amended): toggling external → internal → external always leaves the
engine idle (`gate_triggered` cleared) with the stored last-trigger
timestamp cleared, so the next external edge starts a fresh tempo
measurement; the step counter is NOT reset by the toggle — it retains its
prior value and is reset to 0 only by the next trigger
(src/arp.cpp:92-108). -/
theorem mode_toggle_clears_trigger_state
    (s : Arp.State) (cv : ℚ) (t : ℕ)
    (hInt : s.internalClockEnabled = false)
    (hTrig : s.gateTriggered = true)
    (hLe : s.lastStepTime ≤ t)
    (hClose : t - s.lastStepTime ≤ 10) :
    (Arp.tick (Arp.tick s (c8On cv t)).1 (c8Off cv (t + 1))).1.gateTriggered = false ∧
      (Arp.tick (Arp.tick s (c8On cv t)).1 (c8Off cv (t + 1))).1.lastGateTime = 0 ∧
      (Arp.tick (Arp.tick s (c8On cv t)).1 (c8Off cv (t + 1))).1.arpStep = s.arpStep := by
  have hc : ((t - s.lastStepTime : ℕ) : ℚ) ≤ 10 := by
    exact_mod_cast Nat.cast_le.mpr hClose
  have hfire : ¬ ((125 : ℚ) ≤ ((t - s.lastStepTime : ℕ) : ℚ)) := by linarith
  have hfire4 : ¬ ((500 / 4 : ℚ) ≤ ((t - s.lastStepTime : ℕ) : ℚ)) := by
    intro hcontra
    norm_num at hcontra
    linarith
  have h10 : ¬ (t - s.lastStepTime > 10) := by omega
  have h500 : ¬ ((500 : ℚ) ≤ (0 : ℚ)) := by norm_num
  simp [Arp.tick, Arp.clockStage, Arp.trigStage, Arp.arpStage, c8On, c8Off,
    hInt, hTrig, hfire, hfire4, h10, h500]

/-- Witness for C8 (amended): starting from a playing state at step 2, the
double toggle ends idle with `lastGateTime = 0` and the step still 2. -/
theorem mode_toggle_clears_trigger_state_witness :
    (Arp.tick (Arp.tick
        { Arp.initState with gateTriggered := true, arpStep := 2,
                             lastStepTime := 350, lastGateTime := 100 }
        (c8On 0 351)).1 (c8Off 0 352)).1.gateTriggered = false ∧
      (Arp.tick (Arp.tick
          { Arp.initState with gateTriggered := true, arpStep := 2,
                               lastStepTime := 350, lastGateTime := 100 }
          (c8On 0 351)).1 (c8Off 0 352)).1.lastGateTime = 0 ∧
      (Arp.tick (Arp.tick
          { Arp.initState with gateTriggered := true, arpStep := 2,
                               lastStepTime := 350, lastGateTime := 100 }
          (c8On 0 351)).1 (c8Off 0 352)).1.arpStep = 2 :=
  mode_toggle_clears_trigger_state
    { Arp.initState with gateTriggered := true, arpStep := 2,
                         lastStepTime := 350, lastGateTime := 100 }
    0 351 rfl rfl (by norm_num) (by norm_num)

theorem ArpQ.patternStage_timingQ (cv : ℚ) (s : ArpQ.State) :
    (ArpQ.patternStage cv s).bpm = s.bpm ∧
      (ArpQ.patternStage cv s).stepIntervalMs = s.stepIntervalMs ∧
      (ArpQ.patternStage cv s).lastInternalClockTime = s.lastInternalClockTime ∧
      (ArpQ.patternStage cv s).gateTriggered = s.gateTriggered ∧
      (ArpQ.patternStage cv s).lastGateTime = s.lastGateTime := by
  simp only [ArpQ.patternStage]
  split_ifs <;> simp

theorem ArpQ.noteStage_timingQ (cv : ℚ) (s : ArpQ.State) :
    (ArpQ.noteStage cv s).bpm = s.bpm ∧
      (ArpQ.noteStage cv s).stepIntervalMs = s.stepIntervalMs ∧
      (ArpQ.noteStage cv s).lastInternalClockTime = s.lastInternalClockTime ∧
      (ArpQ.noteStage cv s).gateTriggered = s.gateTriggered ∧
      (ArpQ.noteStage cv s).lastGateTime = s.lastGateTime := by
  simp only [ArpQ.noteStage]
  split_ifs <;> simp

theorem ArpQ.arpStage_timingQ (now rnd : ℕ) (s : ArpQ.State) :
    (ArpQ.arpStage now rnd s).1.bpm = s.bpm ∧
      (ArpQ.arpStage now rnd s).1.stepIntervalMs = s.stepIntervalMs ∧
      (ArpQ.arpStage now rnd s).1.lastInternalClockTime = s.lastInternalClockTime := by
  simp only [ArpQ.arpStage]
  split_ifs <;> simp

/-- C7 (counterexample): on the external → internal transition with the
8-step pattern active, the engine sets the step interval to 125 ms — NOT
the quarter-note duration (60000/120 = 500 ms) divided by the pattern
length 8 (= 62.5 ms) — and sets the internal generator's last-tick time to
`now`, so no internal tick is due at the transition instant (whereas the
claim says a tick is due now). -/
theorem internal_enable_counterexample :
    (ArpQ.tick c7State c7In).1.patternLength = 8 ∧
      (ArpQ.tick c7State c7In).1.bpm = 120 ∧
      (ArpQ.tick c7State c7In).1.stepIntervalMs = 125 ∧
      ¬ ((ArpQ.tick c7State c7In).1.stepIntervalMs =
          60000 / (ArpQ.tick c7State c7In).1.bpm /
            (((ArpQ.tick c7State c7In).1.patternLength : ℕ) : ℚ)) ∧
      (ArpQ.tick c7State c7In).1.lastInternalClockTime = 1000 ∧
      ¬ ((500 : ℚ) ≤
          ((1000 - (ArpQ.tick c7State c7In).1.lastInternalClockTime : ℕ) : ℚ)) := by
  have hsel : ArpQ.SelectPattern (1 / 10) = ArpQ.ArpPattern.upDown8 := by
    norm_num [ArpQ.SelectPattern, truncQ, ArpQ.patternOfIdx]
  have hpat : ArpQ.patternStage (1 / 10) c7s3 = c7s3 := by
    simp only [ArpQ.patternStage, hsel]
    norm_num [c7s3, c7State, ArpQ.initState]
  have hnote : ArpQ.noteStage 0 c7s3 = c7s3 := by
    norm_num [ArpQ.noteStage, QuantizeCvToNote, roundQ, c7s3, c7State,
      ArpQ.initState]
  have hclock : ArpQ.clockStage true false 1000 c7s3 = (false, c7s3) := by
    norm_num [ArpQ.clockStage, c7s3, c7State, ArpQ.initState]
  have htrig : ArpQ.trigStage false true 1000 c7s3 = c7s3 := by
    simp [ArpQ.trigStage]
  have harp : (ArpQ.arpStage 1000 0 c7s3).1 = c7s3 := by
    norm_num [ArpQ.arpStage, c7s3, c7State, ArpQ.initState]
  have htick : (ArpQ.tick c7State c7In).1 = c7s3 := by
    have hstep : ArpQ.tick c7State c7In =
        ArpQ.arpStage 1000 0 (ArpQ.trigStage
          (ArpQ.clockStage true false 1000
            (ArpQ.noteStage 0 (ArpQ.patternStage (1 / 10) c7s3))).1 true 1000
          (ArpQ.clockStage true false 1000
            (ArpQ.noteStage 0 (ArpQ.patternStage (1 / 10) c7s3))).2) := rfl
    rw [hstep, hpat, hnote, hclock, htrig, harp]
  rw [htick]
  norm_num [c7s3, c7State, ArpQ.initState]

/-- C7 (amended): on the external → internal transition the engine adopts
the fixed internal tempo of 120 BPM and sets the per-step interval to the
internal quarter-note duration divided by the constant 4 — regardless of
the active pattern's length — and records `now` as the internal generator's
last-tick time, so the first internal tick becomes due one full quarter
note (500 ms) later, not at the transition instant
(part_000:176-181, src/arp.cpp:97-102). -/
theorem internal_clock_enable_resets_timing
    (s : ArpQ.State) (i : ArpQ.Input)
    (hInt : s.internalClockEnabled = false)
    (hSw : i.switchOn = true) :
    (ArpQ.tick s i).1.bpm = 120 ∧
      (ArpQ.tick s i).1.stepIntervalMs = 500 / 4 ∧
      (ArpQ.tick s i).1.lastInternalClockTime = i.now ∧
      ¬ ((500 : ℚ) ≤
          ((i.now - (ArpQ.tick s i).1.lastInternalClockTime : ℕ) : ℚ)) := by
  set sT : ArpQ.State :=
    { s with internalClockEnabled := true, lastInternalClockTime := i.now,
             bpm := 120, stepIntervalMs := 500 / 4 } with hsT
  have hstep : ArpQ.tick s i =
      ArpQ.arpStage i.now i.rnd (ArpQ.trigStage
        (ArpQ.clockStage true i.gateTrig i.now
          (ArpQ.noteStage i.baseNoteCv (ArpQ.patternStage i.patternCv sT))).1
        true i.now
        (ArpQ.clockStage true i.gateTrig i.now
          (ArpQ.noteStage i.baseNoteCv (ArpQ.patternStage i.patternCv sT))).2) := by
    rw [hsT]
    simp only [ArpQ.tick, hSw, hInt]
    norm_num
  have hp := ArpQ.patternStage_timingQ i.patternCv sT
  have hn := ArpQ.noteStage_timingQ i.baseNoteCv (ArpQ.patternStage i.patternCv sT)
  have h5l : (ArpQ.noteStage i.baseNoteCv
      (ArpQ.patternStage i.patternCv sT)).lastInternalClockTime = i.now := by
    rw [hn.2.2.1, hp.2.2.1, hsT]
  have h5b : (ArpQ.noteStage i.baseNoteCv
      (ArpQ.patternStage i.patternCv sT)).bpm = 120 := by
    rw [hn.1, hp.1, hsT]
  have h5s : (ArpQ.noteStage i.baseNoteCv
      (ArpQ.patternStage i.patternCv sT)).stepIntervalMs = 500 / 4 := by
    rw [hn.2.1, hp.2.1, hsT]
  have hclock : ArpQ.clockStage true i.gateTrig i.now
      (ArpQ.noteStage i.baseNoteCv (ArpQ.patternStage i.patternCv sT)) =
      (false, ArpQ.noteStage i.baseNoteCv (ArpQ.patternStage i.patternCv sT)) := by
    simp only [ArpQ.clockStage, h5l, Nat.sub_self, Nat.cast_zero]
    norm_num
  have htrigX : ArpQ.trigStage false true i.now
      (ArpQ.noteStage i.baseNoteCv (ArpQ.patternStage i.patternCv sT)) =
      ArpQ.noteStage i.baseNoteCv (ArpQ.patternStage i.patternCv sT) := by
    simp [ArpQ.trigStage]
  have ha := ArpQ.arpStage_timingQ i.now i.rnd
    (ArpQ.noteStage i.baseNoteCv (ArpQ.patternStage i.patternCv sT))
  rw [hstep, hclock, htrigX, ha.1, ha.2.1, ha.2.2, h5l, h5b, h5s]
  norm_num

/-- Witness for C7 (amended): enabling the internal clock at t = 2000 from
the initial external state sets 120 BPM, a 125 ms step interval, and a
last-tick time of 2000 (no tick due at 2000). -/
theorem internal_clock_enable_resets_timing_witness :
    (ArpQ.tick ArpQ.initState
        { switchOn := true, gateTrig := false, patternCv := 0, baseNoteCv := 0,
          rnd := 0, now := 2000 }).1.bpm = 120 ∧
      (ArpQ.tick ArpQ.initState
          { switchOn := true, gateTrig := false, patternCv := 0, baseNoteCv := 0,
            rnd := 0, now := 2000 }).1.stepIntervalMs = 500 / 4 ∧
      (ArpQ.tick ArpQ.initState
          { switchOn := true, gateTrig := false, patternCv := 0, baseNoteCv := 0,
            rnd := 0, now := 2000 }).1.lastInternalClockTime = 2000 ∧
      ¬ ((500 : ℚ) ≤
          ((2000 - (ArpQ.tick ArpQ.initState
              { switchOn := true, gateTrig := false, patternCv := 0,
                baseNoteCv := 0, rnd := 0,
                now := 2000 }).1.lastInternalClockTime : ℕ) : ℚ)) :=
  internal_clock_enable_resets_timing ArpQ.initState
    { switchOn := true, gateTrig := false, patternCv := 0, baseNoteCv := 0,
      rnd := 0, now := 2000 } rfl rfl

theorem ArpQ.tick_external_skeletonQ (s : ArpQ.State) (i : ArpQ.Input)
    (hInt : s.internalClockEnabled = false) (hSw : i.switchOn = false)
    (hTrig : i.gateTrig = false) :
    ArpQ.tick s i = ArpQ.arpStage i.now i.rnd
      (ArpQ.noteStage i.baseNoteCv (ArpQ.patternStage i.patternCv
        { s with internalClockEnabled := false })) := by
  simp only [ArpQ.tick, hSw, hInt, hTrig, ArpQ.clockStage, ArpQ.trigStage]
  norm_num

theorem ArpQ.patternStage_idQ (cv : ℚ) (s : ArpQ.State)
    (h : ArpQ.SelectPattern cv = s.currentPattern) :
    ArpQ.patternStage cv s = s := by
  simp only [ArpQ.patternStage, h]
  simp

theorem ArpQ.noteStage_buffer (cv : ℚ) (s : ArpQ.State)
    (h1 : QuantizeCvToNote cv ≠ s.quantizedNote)
    (h2 : QuantizeCvToNote cv ≠ s.nextQuantizedNote)
    (h3 : s.arpStep ≠ 0) (h4 : s.gateTriggered = true) :
    ArpQ.noteStage cv s =
      { s with nextQuantizedNote := QuantizeCvToNote cv,
               noteChangePending := true } := by
  simp only [ArpQ.noteStage]
  rw [if_pos ⟨h1, h2⟩, if_pos ⟨h3, h4⟩]

theorem ArpQ.noteStage_apply (cv : ℚ) (s : ArpQ.State)
    (h1 : QuantizeCvToNote cv ≠ s.quantizedNote)
    (h2 : QuantizeCvToNote cv ≠ s.nextQuantizedNote)
    (h3 : ¬ (s.arpStep ≠ 0 ∧ s.gateTriggered = true)) :
    ArpQ.noteStage cv s =
      { s with quantizedNote := QuantizeCvToNote cv,
               nextQuantizedNote := QuantizeCvToNote cv,
               noteChangePending := false } := by
  simp only [ArpQ.noteStage]
  rw [if_pos ⟨h1, h2⟩, if_neg h3]

theorem ArpQ.noteStage_id (cv : ℚ) (s : ArpQ.State)
    (h : QuantizeCvToNote cv = s.quantizedNote ∨
      QuantizeCvToNote cv = s.nextQuantizedNote) :
    ArpQ.noteStage cv s = s := by
  simp only [ArpQ.noteStage]
  rw [if_neg]
  rintro ⟨ha, hb⟩
  rcases h with h | h
  · exact ha h
  · exact hb h

theorem ArpQ.arpStage_notes_mid (now rnd : ℕ) (s : ArpQ.State)
    (h : s.arpStep ≠ 0) :
    (ArpQ.arpStage now rnd s).1.quantizedNote = s.quantizedNote ∧
      (ArpQ.arpStage now rnd s).1.nextQuantizedNote = s.nextQuantizedNote ∧
      (ArpQ.arpStage now rnd s).1.noteChangePending = s.noteChangePending := by
  simp only [ArpQ.arpStage]
  split_ifs <;> simp_all

theorem ArpQ.arpStage_notes_nopending (now rnd : ℕ) (s : ArpQ.State)
    (h : s.noteChangePending = false) :
    (ArpQ.arpStage now rnd s).1.quantizedNote = s.quantizedNote ∧
      (ArpQ.arpStage now rnd s).1.nextQuantizedNote = s.nextQuantizedNote ∧
      (ArpQ.arpStage now rnd s).1.noteChangePending = false := by
  simp only [ArpQ.arpStage]
  split_ifs <;> simp_all

theorem ArpQ.arpStage_drain_fire (now rnd : ℕ) (s : ArpQ.State)
    (hT : s.gateTriggered = true) (h0 : s.arpStep = 0)
    (hP : s.noteChangePending = true)
    (hF : s.stepIntervalMs ≤ ((now - s.lastStepTime : ℕ) : ℚ)) :
    (ArpQ.arpStage now rnd s).1.quantizedNote = s.nextQuantizedNote ∧
      (ArpQ.arpStage now rnd s).1.noteChangePending = false ∧
      (ArpQ.arpStage now rnd s).2.cvOut = some (clampOut (NoteToCv
        (s.nextQuantizedNote +
          chordInterval (ArpQ.GetPatternIndex s.currentPattern 0 rnd)))) := by
  simp only [ArpQ.arpStage, hT, h0, hP]
  rw [if_pos hF]
  norm_num

/-- C1: the note-change queue of part_000.  (1) While playback is active
(`gate_triggered`) and the step index is nonzero, a newly quantized root
note differing from both the active root and the pending value is buffered
as pending and the active root is unchanged.  (2) The pending note replaces
the active root exactly when a step fires at step index 0, before the chord
degree for that step is computed — the emitted CV is built from the drained
note.  (3) Proposing while idle or at step 0 applies the new root
immediately and clears the pending flag (part_000:207-218, 266-270). -/
theorem note_change_queue_behavior :
    (∀ (s : ArpQ.State) (i : ArpQ.Input),
        s.internalClockEnabled = false → i.switchOn = false →
        i.gateTrig = false →
        ArpQ.SelectPattern i.patternCv = s.currentPattern →
        s.gateTriggered = true → s.arpStep ≠ 0 →
        QuantizeCvToNote i.baseNoteCv ≠ s.quantizedNote →
        QuantizeCvToNote i.baseNoteCv ≠ s.nextQuantizedNote →
        (ArpQ.tick s i).1.nextQuantizedNote = QuantizeCvToNote i.baseNoteCv ∧
          (ArpQ.tick s i).1.noteChangePending = true ∧
          (ArpQ.tick s i).1.quantizedNote = s.quantizedNote) ∧
      (∀ (s : ArpQ.State) (i : ArpQ.Input),
        s.internalClockEnabled = false → i.switchOn = false →
        i.gateTrig = false →
        ArpQ.SelectPattern i.patternCv = s.currentPattern →
        s.gateTriggered = true → s.arpStep = 0 →
        s.noteChangePending = true →
        QuantizeCvToNote i.baseNoteCv = s.nextQuantizedNote →
        s.stepIntervalMs ≤ ((i.now - s.lastStepTime : ℕ) : ℚ) →
        (ArpQ.tick s i).1.quantizedNote = s.nextQuantizedNote ∧
          (ArpQ.tick s i).1.noteChangePending = false ∧
          (ArpQ.tick s i).2.cvOut = some (clampOut (NoteToCv
            (s.nextQuantizedNote +
              chordInterval (ArpQ.GetPatternIndex s.currentPattern 0 i.rnd))))) ∧
      (∀ (s : ArpQ.State) (i : ArpQ.Input),
        s.internalClockEnabled = false → i.switchOn = false →
        i.gateTrig = false →
        ArpQ.SelectPattern i.patternCv = s.currentPattern →
        (s.gateTriggered = false ∨ s.arpStep = 0) →
        QuantizeCvToNote i.baseNoteCv ≠ s.quantizedNote →
        QuantizeCvToNote i.baseNoteCv ≠ s.nextQuantizedNote →
        (ArpQ.tick s i).1.quantizedNote = QuantizeCvToNote i.baseNoteCv ∧
          (ArpQ.tick s i).1.nextQuantizedNote = QuantizeCvToNote i.baseNoteCv ∧
          (ArpQ.tick s i).1.noteChangePending = false) := by
  refine ⟨?_, ?_, ?_⟩
  · intro s i hInt hSw hTrig hPat hT hS0 hq hnq
    rw [ArpQ.tick_external_skeletonQ s i hInt hSw hTrig,
        ArpQ.patternStage_idQ i.patternCv
          { s with internalClockEnabled := false } hPat,
        ArpQ.noteStage_buffer i.baseNoteCv
          { s with internalClockEnabled := false } hq hnq hS0 hT]
    obtain ⟨e1, e2, e3⟩ := ArpQ.arpStage_notes_mid i.now i.rnd
      { s with internalClockEnabled := false,
               nextQuantizedNote := QuantizeCvToNote i.baseNoteCv,
               noteChangePending := true } hS0
    exact ⟨e2, e3, e1⟩
  · intro s i hInt hSw hTrig hPat hT hS0 hPend hSame hFire
    rw [ArpQ.tick_external_skeletonQ s i hInt hSw hTrig,
        ArpQ.patternStage_idQ i.patternCv
          { s with internalClockEnabled := false } hPat,
        ArpQ.noteStage_id i.baseNoteCv
          { s with internalClockEnabled := false } (Or.inr hSame)]
    exact ArpQ.arpStage_drain_fire i.now i.rnd
      { s with internalClockEnabled := false } hT hS0 hPend hFire
  · intro s i hInt hSw hTrig hPat hIdle hq hnq
    have h3 : ¬ (s.arpStep ≠ 0 ∧ s.gateTriggered = true) := by
      rintro ⟨hne, htr⟩
      rcases hIdle with h | h
      · rw [htr] at h
        cases h
      · exact hne h
    rw [ArpQ.tick_external_skeletonQ s i hInt hSw hTrig,
        ArpQ.patternStage_idQ i.patternCv
          { s with internalClockEnabled := false } hPat,
        ArpQ.noteStage_apply i.baseNoteCv
          { s with internalClockEnabled := false } hq hnq h3]
    obtain ⟨e1, e2, e3⟩ := ArpQ.arpStage_notes_nopending i.now i.rnd
      { s with internalClockEnabled := false,
               quantizedNote := QuantizeCvToNote i.baseNoteCv,
               nextQuantizedNote := QuantizeCvToNote i.baseNoteCv,
               noteChangePending := false } rfl
    exact ⟨e1, e2, e3⟩

/-- Witness for C1: the three queue behaviors at concrete states. -/
theorem note_change_queue_behavior_witness :
    ((ArpQ.tick c1sA c1iA).1.nextQuantizedNote = QuantizeCvToNote c1iA.baseNoteCv ∧
        (ArpQ.tick c1sA c1iA).1.noteChangePending = true ∧
        (ArpQ.tick c1sA c1iA).1.quantizedNote = c1sA.quantizedNote) ∧
      ((ArpQ.tick c1sB c1iB).1.quantizedNote = c1sB.nextQuantizedNote ∧
        (ArpQ.tick c1sB c1iB).1.noteChangePending = false ∧
        (ArpQ.tick c1sB c1iB).2.cvOut = some (clampOut (NoteToCv
          (c1sB.nextQuantizedNote +
            chordInterval (ArpQ.GetPatternIndex c1sB.currentPattern 0 c1iB.rnd))))) ∧
      ((ArpQ.tick c1sC c1iC).1.quantizedNote = QuantizeCvToNote c1iC.baseNoteCv ∧
        (ArpQ.tick c1sC c1iC).1.nextQuantizedNote = QuantizeCvToNote c1iC.baseNoteCv ∧
        (ArpQ.tick c1sC c1iC).1.noteChangePending = false) := by
  have hsel : ArpQ.SelectPattern (-9 / 10) = ArpQ.ArpPattern.up := by
    norm_num [ArpQ.SelectPattern, truncQ, ArpQ.patternOfIdx]
  have hq14 : QuantizeCvToNote (1 / 20) = 14 := by
    norm_num [QuantizeCvToNote, roundQ]
  refine ⟨note_change_queue_behavior.1 c1sA c1iA rfl rfl rfl hsel rfl
      (by norm_num [c1sA, ArpQ.initState])
      (by norm_num [c1sA, c1iA, ArpQ.initState, hq14])
      (by norm_num [c1sA, c1iA, ArpQ.initState, hq14]),
    note_change_queue_behavior.2.1 c1sB c1iB rfl rfl rfl hsel rfl rfl rfl
      (by norm_num [c1sB, c1iB, ArpQ.initState, hq14])
      (by norm_num [c1sB, c1iB, ArpQ.initState]),
    note_change_queue_behavior.2.2 c1sC c1iC rfl rfl rfl hsel
      (Or.inl rfl)
      (by norm_num [c1sC, c1iC, ArpQ.initState, hq14])
      (by norm_num [c1sC, c1iC, ArpQ.initState, hq14])⟩

theorem ArpT.tempoBpm_bounds (t : ℚ) :
    20 ≤ ArpT.tempoBpm t ∧ ArpT.tempoBpm t ≤ 200 := by
  simp only [ArpT.tempoBpm]
  split_ifs <;> constructor <;> linarith

theorem ArpT.patternStage_timingT (cv : ℚ) (s : ArpT.State) :
    (ArpT.patternStage cv s).bpm = s.bpm ∧
      (ArpT.patternStage cv s).gateTriggered = s.gateTriggered ∧
      (ArpT.patternStage cv s).lastGateTime = s.lastGateTime := by
  simp only [ArpT.patternStage]
  split_ifs <;> simp

theorem ArpT.noteStage_timingT (cv : ℚ) (s : ArpT.State) :
    (ArpT.noteStage cv s).bpm = s.bpm ∧
      (ArpT.noteStage cv s).stepIntervalMs = s.stepIntervalMs ∧
      (ArpT.noteStage cv s).gateTriggered = s.gateTriggered ∧
      (ArpT.noteStage cv s).lastGateTime = s.lastGateTime ∧
      (ArpT.noteStage cv s).patternLength = s.patternLength := by
  simp only [ArpT.noteStage]
  split_ifs <;> simp

theorem ArpT.patternStage_idT (cv : ℚ) (s : ArpT.State)
    (h : ArpT.SelectPattern cv = s.currentPattern) :
    ArpT.patternStage cv s = s := by
  simp only [ArpT.patternStage, h]
  simp

theorem ArpT.arpStage_timingT (now rnd : ℕ) (s : ArpT.State) :
    (ArpT.arpStage now rnd s).1.bpm = s.bpm ∧
      (ArpT.arpStage now rnd s).1.stepIntervalMs = s.stepIntervalMs ∧
      (ArpT.arpStage now rnd s).1.gateTriggered = s.gateTriggered := by
  simp only [ArpT.arpStage]
  split_ifs <;> simp_all

theorem ArpT.arpStage_nofire (now rnd : ℕ) (s : ArpT.State)
    (h : ¬ (s.stepIntervalMs ≤ ((now - s.lastStepTime : ℕ) : ℚ))) :
    (ArpT.arpStage now rnd s).1 = s := by
  simp only [ArpT.arpStage]
  split_ifs <;> simp_all

theorem ArpT.tick_external_skeletonT (s : ArpT.State) (i : ArpT.Input)
    (hInt : s.internalClockEnabled = false) (hSw : i.switchOn = false) :
    ArpT.tick s i = ArpT.arpStage i.now i.rnd
      (ArpT.clockStage false i.gateTrig i.now
        (ArpT.noteStage i.baseNoteCv (ArpT.patternStage i.patternCv
          { s with internalClockEnabled := false }))) := by
  simp only [ArpT.tick, hSw, hInt]
  norm_num

theorem ArpT.tick_internal_skeleton (s : ArpT.State) (i : ArpT.Input)
    (hSw : i.switchOn = true) :
    ArpT.tick s i = ArpT.arpStage i.now i.rnd
      (ArpT.clockStage true i.gateTrig i.now
        (ArpT.noteStage i.baseNoteCv (ArpT.patternStage i.patternCv
          { s with internalClockEnabled := true,
                   bpm := ArpT.tempoBpm i.tempoCv }))) := by
  simp only [ArpT.tick, hSw]
  norm_num

theorem ArpT.clockStage_measure (now : ℕ) (s : ArpT.State)
    (hG : s.lastGateTime > 0) (hD : 0 < now - s.lastGateTime) :
    ArpT.clockStage false true now s =
      { s with bpm := 60000 / ((now - s.lastGateTime : ℕ) : ℚ),
               stepIntervalMs :=
                 ((now - s.lastGateTime : ℕ) : ℚ) / (s.patternLength : ℚ),
               lastGateTime := now, gateTriggered := true,
               arpStep := 0, lastStepTime := now } := by
  simp only [ArpT.clockStage, hG, hD]
  norm_num

/-- C3: on an external trigger with a previous trigger timestamp recorded
and a positive elapsed interval, the engine sets the tempo to
`60000 / interval_ms` BPM and the step interval to `interval_ms` divided by
the active pattern length (part_001:258-278). -/
theorem external_tempo_measurement
    (s : ArpT.State) (i : ArpT.Input)
    (hInt : s.internalClockEnabled = false)
    (hSw : i.switchOn = false)
    (hTrig : i.gateTrig = true)
    (hPat : ArpT.SelectPattern i.patternCv = s.currentPattern)
    (hG : s.lastGateTime > 0)
    (hD : 0 < i.now - s.lastGateTime) :
    (ArpT.tick s i).1.bpm = 60000 / ((i.now - s.lastGateTime : ℕ) : ℚ) ∧
      (ArpT.tick s i).1.stepIntervalMs =
        ((i.now - s.lastGateTime : ℕ) : ℚ) / (s.patternLength : ℚ) := by
  rw [ArpT.tick_external_skeletonT s i hInt hSw, hTrig,
      ArpT.patternStage_idT i.patternCv { s with internalClockEnabled := false } hPat]
  obtain ⟨hb, hsi, hg, hlg, hpl⟩ :=
    ArpT.noteStage_timingT i.baseNoteCv { s with internalClockEnabled := false }
  have hG2 : (ArpT.noteStage i.baseNoteCv
      { s with internalClockEnabled := false }).lastGateTime > 0 := by
    rw [hlg]
    exact hG
  have hD2 : 0 < i.now - (ArpT.noteStage i.baseNoteCv
      { s with internalClockEnabled := false }).lastGateTime := by
    rw [hlg]
    exact hD
  rw [ArpT.clockStage_measure i.now _ hG2 hD2]
  constructor
  · rw [(ArpT.arpStage_timingT i.now i.rnd _).1]
    simp only [hlg]
  · rw [(ArpT.arpStage_timingT i.now i.rnd _).2.1]
    simp only [hlg, hpl]

/-- Witness for C3: two triggers 500 ms apart with the 4-step pattern give
120 BPM and a 125 ms step interval. -/
theorem external_tempo_measurement_witness :
    (ArpT.tick c3s c3i).1.bpm = 120 ∧
      (ArpT.tick c3s c3i).1.stepIntervalMs = 125 := by
  have hsel : ArpT.SelectPattern c3i.patternCv = c3s.currentPattern := by
    norm_num [c3i, c3s, ArpT.initState, ArpT.SelectPattern, truncQ,
      ArpT.patternOfIdx]
  obtain ⟨h1, h2⟩ := external_tempo_measurement c3s c3i rfl rfl rfl hsel
    (by norm_num [c3s, ArpT.initState]) (by norm_num [c3s, c3i, ArpT.initState])
  constructor
  · rw [h1]
    norm_num [c3s, c3i, ArpT.initState]
  · rw [h2]
    norm_num [c3s, c3i, ArpT.initState]

/-- C10: in the tempo-pot variant, whenever internal clock mode is enabled
the engine sets the triggered flag on that same tick without requiring any
trigger event — auto-starting playback at step 0 with the step timer origin
set to now when it was idle — so the engine is never idle after a tick in
internal clock mode (part_001:241-253). -/
theorem internal_mode_never_idle
    (s : ArpT.State) (i : ArpT.Input)
    (hSw : i.switchOn = true) :
    (ArpT.tick s i).1.gateTriggered = true ∧
      (s.gateTriggered = false →
        (ArpT.tick s i).1.arpStep = 0 ∧
          (ArpT.tick s i).1.lastStepTime = i.now) := by
  rw [ArpT.tick_internal_skeleton s i hSw]
  set X := ArpT.noteStage i.baseNoteCv (ArpT.patternStage i.patternCv
    { s with internalClockEnabled := true,
             bpm := ArpT.tempoBpm i.tempoCv }) with hXdef
  obtain ⟨pb, pg, plg⟩ := ArpT.patternStage_timingT i.patternCv
    { s with internalClockEnabled := true, bpm := ArpT.tempoBpm i.tempoCv }
  obtain ⟨nb, nsi, ng, nlg, npl⟩ := ArpT.noteStage_timingT i.baseNoteCv
    (ArpT.patternStage i.patternCv
      { s with internalClockEnabled := true, bpm := ArpT.tempoBpm i.tempoCv })
  have hXb : X.bpm = ArpT.tempoBpm i.tempoCv := by
    rw [hXdef, nb, pb]
  have hXg : X.gateTriggered = s.gateTriggered := by
    rw [hXdef, ng, pg]
  by_cases hT : s.gateTriggered = true
  · have hclock : ArpT.clockStage true i.gateTrig i.now X =
        { X with stepIntervalMs := 60000 / X.bpm } := by
      simp only [ArpT.clockStage, hXg, hT]
      norm_num
    rw [hclock]
    refine ⟨?_, ?_⟩
    · rw [(ArpT.arpStage_timingT i.now i.rnd _).2.2]
      simp only [hXg, hT]
    · intro hF
      rw [hT] at hF
      cases hF
  · have hTf : s.gateTriggered = false := by
      cases hb : s.gateTriggered
      · rfl
      · exact absurd hb hT
    have hclock : ArpT.clockStage true i.gateTrig i.now X =
        { X with stepIntervalMs := 60000 / X.bpm, gateTriggered := true,
                 arpStep := 0, lastStepTime := i.now } := by
      simp only [ArpT.clockStage, hXg, hTf]
      norm_num
    rw [hclock]
    have hpos : 0 < (60000 : ℚ) / X.bpm := by
      rw [hXb]
      have h20 := (ArpT.tempoBpm_bounds i.tempoCv).1
      have : (0 : ℚ) < ArpT.tempoBpm i.tempoCv := by linarith
      positivity
    have hnofire :
        ¬ (({ X with stepIntervalMs := 60000 / X.bpm,
                     gateTriggered := true,
                     arpStep := 0,
                     lastStepTime := i.now } : ArpT.State).stepIntervalMs ≤
          ((i.now - ({ X with stepIntervalMs := 60000 / X.bpm,
                              gateTriggered := true,
                              arpStep := 0,
                              lastStepTime := i.now } :
              ArpT.State).lastStepTime : ℕ) : ℚ)) := by
      dsimp only
      rw [Nat.sub_self]
      push_cast
      linarith
    rw [ArpT.arpStage_nofire _ _ _ hnofire]
    exact ⟨rfl, fun _ => ⟨rfl, rfl⟩⟩

/-- Witness for C10: enabling internal clock from the idle initial state
auto-starts playback at step 0 with the step timer origin at now. -/
theorem internal_mode_never_idle_witness :
    (ArpT.tick ArpT.initState
        { switchOn := true, gateTrig := false, tempoCv := 0, patternCv := 0,
          baseNoteCv := 0, rnd := 0, now := 777 }).1.gateTriggered = true ∧
      (ArpT.tick ArpT.initState
          { switchOn := true, gateTrig := false, tempoCv := 0, patternCv := 0,
            baseNoteCv := 0, rnd := 0, now := 777 }).1.arpStep = 0 ∧
        (ArpT.tick ArpT.initState
            { switchOn := true, gateTrig := false, tempoCv := 0, patternCv := 0,
              baseNoteCv := 0, rnd := 0, now := 777 }).1.lastStepTime = 777 := by
  have h := internal_mode_never_idle ArpT.initState
    { switchOn := true, gateTrig := false, tempoCv := 0, patternCv := 0,
      baseNoteCv := 0, rnd := 0, now := 777 } rfl
  exact ⟨h.1, (h.2 rfl).1, (h.2 rfl).2⟩

/-- C9: `SelectPattern` distinguishes the bipolar CV range from the
unipolar pot range by the reading's sign — negative readings are rescaled
via `(x+1)/2`, non-negative readings are used directly — maps the result
into `ARP_PATTERN_COUNT = 6` equal-width buckets, and the resulting pattern
index always lands in the valid range `[0, 5]`, clamped at both ends: the
engine's `SelectPattern` agrees pointwise with the spec-modelled
bucket-and-clamp index computation (part_001:116-140). -/
theorem selectPattern_spec_refinement (cv : ℚ) :
    ArpT.SelectPattern cv = ArpT.patternOfIdx (ArpT.SelectPatternSpecIdx cv) ∧
      0 ≤ ArpT.SelectPatternSpecIdx cv ∧ ArpT.SelectPatternSpecIdx cv ≤ 5 := by
  simp only [ArpT.SelectPattern, ArpT.SelectPatternSpecIdx, truncQ]
  set u : ℚ := if cv < 0 then (cv + 1) / 2 else cv with hu
  by_cases h0 : u < 0
  · have hf0 : ⌊u * 6⌋ < 0 := by
      rw [Int.floor_lt]
      push_cast
      nlinarith
    have hspec : max 0 (min 5 ⌊u * 6⌋) = 0 := by omega
    simp only [if_pos h0, hspec]
    norm_num
  · by_cases h1 : u > 1
    · have hf6 : (6 : ℤ) ≤ ⌊u * 6⌋ := by
        rw [Int.le_floor]
        push_cast
        nlinarith
      have hspec : max 0 (min 5 ⌊u * 6⌋) = 5 := by omega
      simp only [if_neg h0, if_pos h1, hspec]
      norm_num
    · have hu0 : 0 ≤ u := le_of_not_lt h0
      have hu1 : u ≤ 1 := le_of_not_lt h1
      have hf0 : 0 ≤ ⌊u * 6⌋ := by
        apply Int.floor_nonneg.mpr
        nlinarith
      have hf6 : ⌊u * 6⌋ ≤ 6 := by
        have hle : u * 6 ≤ 6 := by nlinarith
        calc ⌊u * 6⌋ ≤ ⌊(6 : ℚ)⌋ := Int.floor_le_floor hle
          _ = 6 := by norm_num
      have hq6 : (0 : ℚ) ≤ u * 6 := by nlinarith
      simp only [if_neg h0, if_neg h1]
      rw [if_pos hq6]
      by_cases h6 : (6 : ℤ) ≤ ⌊u * 6⌋
      · have hspec : max 0 (min 5 ⌊u * 6⌋) = 5 := by omega
        rw [if_pos h6, hspec]
        refine ⟨rfl, ?_, ?_⟩ <;> omega
      · have hspec : max 0 (min 5 ⌊u * 6⌋) = ⌊u * 6⌋ := by omega
        rw [if_neg h6, hspec]
        refine ⟨rfl, ?_, ?_⟩ <;> omega
